import Mathlib

/-!
Shallow embedding of the OMR processing core of the `eomr` repository
(`src/server/lib/omr-processor.ts` and the batch-summary computations of
`src/server/routes.ts`), together with theorems settling the spec claims.

Modelling conventions:
* JavaScript numbers are modelled as `ℚ` (all arithmetic in the embedded
  code is exact on rationals; no overflow or float rounding is relevant at
  the magnitudes involved).
* `Math.round x` is `⌊x + 1/2⌋` (JS rounds half away from zero; all rounded
  quantities here are nonnegative, where this coincides with half-up).
* `Math.random()` is modelled by an explicit stream `rand : ℕ → ℚ` of drawn
  values, consumed in the order the source calls `Math.random()`:
  for each of the 5 questions, in order, one draw for `baseScore`, one for
  `confidence`, one for `coordinates.x` (indices 3i, 3i+1, 3i+2), then one
  draw for `imageQuality` (index 15) and one for `skewAngle` (index 16).
* The database row of a sheet (`storage.updateOmrSheet`) is a record;
  a partial update patch is a record of `Option` fields merged field-wise.
  Scores are persisted via `toString` and read back via `Number(...) || 0`;
  since this round-trip is the identity on the rational values involved,
  stored scores are kept as `Option ℚ` (`none` = SQL NULL, read back as 0).
-/

/-- JS `Math.round` on the nonnegative rationals used by this code
(`Rat.floor` keeps the definition executable). -/
def jround (x : ℚ) : ℤ := (x + 1/2).floor

theorem jround_eq (x : ℚ) : jround x = ⌊x + 1/2⌋ := by
  rw [jround, Rat.floor_def', Rat.floor_def]

/-- One entry of the `responses` array built by `simulateOMRDetection`
(interface `OMRResponse` in `omr-processor.ts`). -/
structure OMRResponse where
  questionId : String
  questionText : String
  response : ℤ
  confidence : ℚ
  coordX : ℚ
  coordY : ℚ
  coordW : ℚ
  coordH : ℚ
deriving DecidableEq

/-- The `metadata` sub-object of `ProcessingResult`. -/
structure ResultMetadata where
  imageQuality : ℚ
  detectedMarks : ℕ
  skewAngle : ℚ
deriving DecidableEq

/-- Interface `ProcessingResult` in `omr-processor.ts`. -/
structure ProcessingResult where
  responses : List OMRResponse
  overallScore : ℚ
  confidence : ℚ
  processingTime : ℚ
  metadata : ResultMetadata
deriving DecidableEq

/-- The fixed question list of `simulateOMRDetection`. -/
def questions : List (String × String) :=
  [("1", "Course Content Quality"), ("2", "Teaching Effectiveness"),
   ("3", "Learning Materials"), ("4", "Assessment Methods"),
   ("5", "Overall Satisfaction")]

/-- The body of the `questions.map` callback in `simulateOMRDetection`:
`baseScore = 3.5 + Math.random() * 1.5`,
`response = Math.round(Math.max(1, Math.min(5, baseScore)))`,
`confidence = 0.7 + Math.random() * 0.3`, plus the coordinates object
(`x = 50 + Math.random() * 400`, `y = 100 + parseInt(id) * 80`). -/
def mkResponse (rand : ℕ → ℚ) (i : ℕ) (q : String × String) : OMRResponse :=
  { questionId := q.1
    questionText := q.2
    response := jround (max 1 (min 5 (7/2 + rand (3*i) * (3/2))))
    confidence := 7/10 + rand (3*i + 1) * (3/10)
    coordX := 50 + rand (3*i + 2) * 400
    coordY := 100 + ((q.1.toNat?.getD 0 : ℕ) : ℚ) * 80
    coordW := 20
    coordH := 20 }

/-- `simulateOMRDetection` of `omr-processor.ts`. The `filePath` argument is
taken but — exactly as in the source — never used by the computation. -/
def simulateOMRDetection (filePath : String) (rand : ℕ → ℚ) : ProcessingResult :=
  let responses := questions.enum.map fun iq => mkResponse rand iq.1 iq.2
  let overallScore :=
    (responses.map fun r => (r.response : ℚ)).sum / (responses.length : ℚ)
  let conf := (responses.map fun r => r.confidence).sum / (responses.length : ℚ)
  { responses := responses
    overallScore := (jround (overallScore * 100) : ℚ) / 100
    confidence := (jround (conf * 10000) : ℚ) / 10000
    processingTime := 0
    metadata :=
      { imageQuality := 4/5 + rand 15 * (1/5)
        detectedMarks := responses.length
        skewAngle := (rand 16 - 1/2) * 5 } }

/-- `preprocessImage` of `omr-processor.ts`: the async placeholder returns its
input path unchanged; the `Except` layer models the promise's reject channel,
which the body never uses. -/
def preprocessImage (filePath : String) : Except String String :=
  Except.ok filePath

/-- `detectOMRMarks` of `omr-processor.ts`: the placeholder resolves to `[]`
(its element type `any` never materializes; `Unit` stands in for it). -/
def detectOMRMarks (imagePath : String) : List Unit := []

/-- A stored OMR sheet row, restricted to the columns the processor and the
summary routes touch (`status`, `overall_score`, `confidence`,
`processing_time`, `responses`, `metadata` of table `omr_sheets`). -/
structure SheetMetadata where
  error : Option String
  processingTime : Option ℚ
  imageQuality : Option ℚ
  detectedMarks : Option ℕ
  skewAngle : Option ℚ
deriving DecidableEq

structure OmrSheet where
  status : String
  overallScore : Option ℚ
  confidence : Option ℚ
  processingTime : Option ℚ
  responses : Option (List OMRResponse)
  metadata : Option SheetMetadata
deriving DecidableEq

/-- A `Partial<OmrSheet>` patch as passed to `storage.updateOmrSheet`. -/
structure SheetUpdate where
  status : Option String := none
  overallScore : Option ℚ := none
  confidence : Option ℚ := none
  processingTime : Option ℚ := none
  responses : Option (List OMRResponse) := none
  metadata : Option SheetMetadata := none

/-- Merge one patch field into one (nullable) row column: a field present in
the patch overwrites the column, an absent one leaves it untouched. -/
def patchField {α : Type} (new old : Option α) : Option α :=
  match new with
  | some v => some v
  | none => old

/-- `storage.updateOmrSheet`: fields present in the patch overwrite the row,
absent fields are left untouched. -/
def updateOmrSheet (s : OmrSheet) (u : SheetUpdate) : OmrSheet :=
  { status := u.status.getD s.status
    overallScore := patchField u.overallScore s.overallScore
    confidence := patchField u.confidence s.confidence
    processingTime := patchField u.processingTime s.processingTime
    responses := patchField u.responses s.responses
    metadata := patchField u.metadata s.metadata }

/-- The `try` body of `processOMRImage` after the initial status update:
check the file, run detection, and build the success update. Its only
`throw` site is `if (!fs.existsSync(filePath)) throw new Error('File not
found')`; `Except.error` is the thrown exception caught by the `catch`. -/
def processBody (s1 : OmrSheet) (fileExists : Bool) (filePath : String)
    (rand : ℕ → ℚ) (startTime endTime : ℚ) : Except String OmrSheet :=
  if fileExists then
    let result := simulateOMRDetection filePath rand
    let processingTime := endTime - startTime
    let status := if result.confidence < 4/5 then "review_needed" else "processed"
    Except.ok (updateOmrSheet s1
      { status := some status
        overallScore := some result.overallScore
        confidence := some result.confidence
        processingTime := some processingTime
        responses := some result.responses
        metadata := some
          { error := none
            processingTime := some processingTime
            imageQuality := some result.metadata.imageQuality
            detectedMarks := some result.metadata.detectedMarks
            skewAngle := some result.metadata.skewAngle } })
  else
    Except.error "File not found"

/-- `processOMRImage` of `omr-processor.ts`, as a state transformer on the
sheet row. It first sets `status = 'processing'`, then runs the body; any
thrown error is caught and converted into the `failed` update with the error
message and elapsed time in `metadata`. `startTime`/`endTime` stand for the
two `Date.now()` readings. Totality of this function is the embedded form of
"no exception escapes the pipeline invocation". -/
def processOMRImage (s : OmrSheet) (fileExists : Bool) (filePath : String)
    (rand : ℕ → ℚ) (startTime endTime : ℚ) : OmrSheet :=
  let s1 := updateOmrSheet s { status := some "processing" }
  match processBody s1 fileExists filePath rand startTime endTime with
  | Except.ok s2 => s2
  | Except.error msg =>
      updateOmrSheet s1
        { status := some "failed"
          metadata := some
            { error := some msg
              processingTime := some (endTime - startTime)
              imageQuality := none
              detectedMarks := none
              skewAngle := none } }

/-! ### Batch summaries (`src/server/routes.ts`) -/

/-- `Number(sheet.overallScore) || 0` in `GET /api/results/:batchCode`:
a NULL (or absent) stored score reads back as `0`. -/
def scoreOrZero (s : OmrSheet) : ℚ := s.overallScore.getD 0

/-- The statistics object built by `GET /api/results/:batchCode`. -/
structure ResultsSummary where
  totalSheets : ℕ
  processedCount : ℕ
  needsReview : ℕ
  averageScore : ℚ
deriving DecidableEq

/-- The statistics computation of `GET /api/results/:batchCode`:
`processedSheets = sheets.filter(s => s.status === 'processed')`,
`averageScore = processedSheets.length > 0 ? sum/len : 0`, rounded to two
decimals. -/
def computeResults (sheets : List OmrSheet) : ResultsSummary :=
  let processed := sheets.filter fun s => s.status == "processed"
  let averageScore : ℚ :=
    if 0 < processed.length then
      (processed.map scoreOrZero).sum / (processed.length : ℚ)
    else 0
  { totalSheets := sheets.length
    processedCount := processed.length
    needsReview := (sheets.filter fun s => s.status == "review_needed").length
    averageScore := (jround (averageScore * 100) : ℚ) / 100 }

/-- One step of the `sheets.reduce` building `statusCounts` in
`GET /api/processing-status/:batchCode`:
`acc[sheet.status] = (acc[sheet.status] || 0) + 1`. The JS object is an
association list keyed by status in insertion order. -/
def addCount : List (String × ℕ) → String → List (String × ℕ)
  | [], st => [(st, 1)]
  | (k, v) :: rest, st =>
    if k == st then (k, v + 1) :: rest else (k, v) :: addCount rest st

/-- The `statusCounts` object of `GET /api/processing-status/:batchCode`. -/
def statusCounts (sheets : List OmrSheet) : List (String × ℕ) :=
  sheets.foldl (fun acc s => addCount acc s.status) []

/-- JS property lookup on the `statusCounts` object: `undefined` (`none`)
when no sheet has the status. -/
def lookupCount (acc : List (String × ℕ)) (st : String) : Option ℕ :=
  (acc.find? fun kv => kv.1 == st).map Prod.snd

/-- `isComplete: statusCounts.pending === 0` — strict equality of the looked
up property with `0`; `undefined === 0` is `false`. -/
def isComplete (sheets : List OmrSheet) : Bool :=
  match lookupCount (statusCounts sheets) "pending" with
  | some n => n == 0
  | none => false

/-! ### Arithmetic helper lemmas -/

theorem jround_intCast (n : ℤ) : jround ((n : ℚ)) = n := by
  rw [jround_eq, Int.floor_int_add]
  norm_num

/-- Rounding to two decimals is exact on a mean of five integers. -/
theorem round2_fifth (S : ℤ) :
    ((jround (((S : ℚ) / 5) * 100) : ℤ) : ℚ) / 100 = (S : ℚ) / 5 := by
  have h : ((S : ℚ) / 5) * 100 = ((20 * S : ℤ) : ℚ) := by push_cast; ring
  rw [h, jround_intCast]
  push_cast
  ring

/-- The clamp-then-round of `response` always lands in `1..5`. -/
theorem response_clamp_bounds (x : ℚ) :
    1 ≤ jround (max 1 (min 5 x)) ∧ jround (max 1 (min 5 x)) ≤ 5 := by
  have h1 : (1 : ℚ) ≤ max 1 (min 5 x) := le_max_left _ _
  have h5 : max 1 (min 5 x) ≤ 5 := max_le (by norm_num) (min_le_left _ _)
  rw [jround_eq]
  constructor
  · rw [Int.le_floor]
    push_cast
    linarith
  · have : ⌊max 1 (min 5 x) + 1/2⌋ < 6 := by
      rw [Int.floor_lt]
      push_cast
      linarith
    omega

/-- Rounding to four decimals keeps a mean in `[0.7, 1)` inside `[0.7, 1]`. -/
theorem round4_bounds (m : ℚ) (h1 : 7/10 ≤ m) (h2 : m < 1) :
    7/10 ≤ ((jround (m * 10000) : ℤ) : ℚ) / 10000 ∧
      ((jround (m * 10000) : ℤ) : ℚ) / 10000 ≤ 1 := by
  have hlo : (7000 : ℤ) ≤ jround (m * 10000) := by
    rw [jround_eq, Int.le_floor]
    push_cast
    linarith
  have hhi : jround (m * 10000) < 10001 := by
    rw [jround_eq, Int.floor_lt]
    push_cast
    linarith
  have hlo' : (7000 : ℚ) ≤ ((jround (m * 10000) : ℤ) : ℚ) := by exact_mod_cast hlo
  have hhi' : ((jround (m * 10000) : ℤ) : ℚ) ≤ 10000 := by
    have : jround (m * 10000) ≤ 10000 := by omega
    exact_mod_cast this
  constructor <;> linarith

/-! ### Concrete sheets used by the batch-route scenarios -/

/-- Sheet A of the spec's batch scenario: `processed`, score `4.5`. -/
def sheetA : OmrSheet :=
  { status := "processed", overallScore := some (9/2), confidence := some (17/20)
    processingTime := some 1200, responses := some [], metadata := none }

/-- Sheet B of the spec's batch scenario: `review_needed`, score `2.0`. -/
def sheetB : OmrSheet :=
  { status := "review_needed", overallScore := some 2, confidence := some (1/2)
    processingTime := some 1500, responses := some [], metadata := none }

/-- Sheet C of the spec's batch scenario: `failed`, no score. -/
def sheetC : OmrSheet :=
  { status := "failed", overallScore := none, confidence := none
    processingTime := none, responses := none, metadata := none }

/-! ### Claims about the batch summaries -/

/-- Claim C1, counterexample. On the spec's own batch scenario (sheet A
`processed` with score 4.5, sheet B `review_needed` with score 2.0, sheet C
`failed`) the code's `GET /api/results` statistics yield `averageScore = 4.5`:
only `processed` sheets enter the average, so the claimed value `3.25` (the
mean over `processed` and `review_needed`) is wrong. -/
theorem computeResults_scenario_average :
    (computeResults [sheetA, sheetB, sheetC]).totalSheets = 3 ∧
    (computeResults [sheetA, sheetB, sheetC]).averageScore = 9/2 ∧
    (9/2 : ℚ) ≠ 13/4 := by
  refine ⟨rfl, ?_, by norm_num⟩
  simp [computeResults, sheetA, sheetB, sheetC, scoreOrZero, jround_eq]
  norm_num

/-- Claim C1, amended: `averageScore` of the results route is the mean
`overallScore` over sheets in status `processed` only; appending a
`review_needed` or `failed` sheet to a batch leaves `averageScore` unchanged
while still increasing `totalSheets`. -/
theorem computeResults_average_ignores_unprocessed (sheets : List OmrSheet)
    (t : OmrSheet) (h : t.status = "review_needed" ∨ t.status = "failed") :
    (computeResults (sheets ++ [t])).averageScore =
        (computeResults sheets).averageScore ∧
      (computeResults (sheets ++ [t])).totalSheets = sheets.length + 1 := by
  have hne : (t.status == "processed") = false := by
    rcases h with h | h <;> simp [h]
  constructor
  · simp [computeResults, List.filter_append, List.filter_cons, hne]
  · simp [computeResults]

/-- Witness for `computeResults_average_ignores_unprocessed` at the concrete
batch `[sheetA]` extended by the `review_needed` sheet B. -/
theorem computeResults_average_ignores_unprocessed_wit :
    (computeResults [sheetA, sheetB]).averageScore =
      (computeResults [sheetA]).averageScore :=
  (computeResults_average_ignores_unprocessed [sheetA] sheetB (Or.inl rfl)).1

/-- Every count stored in the `statusCounts` object is at least 1: a status
key exists only once a sheet with that status has been counted. -/
theorem addCount_pos (acc : List (String × ℕ)) (st : String)
    (h : ∀ kv ∈ acc, 1 ≤ kv.2) : ∀ kv ∈ addCount acc st, 1 ≤ kv.2 := by
  induction acc with
  | nil =>
    intro kv hkv
    simp [addCount] at hkv
    simp [hkv]
  | cons hd tl ih =>
    intro kv hkv
    rw [addCount] at hkv
    by_cases hh : (hd.1 == st) = true
    · rcases hd with ⟨k, v⟩
      simp only [hh, if_pos] at hkv
      rcases List.mem_cons.mp hkv with h1 | h1
      · have : 1 ≤ v := h ⟨k, v⟩ (List.mem_cons_self _ _)
        simp [h1]
      · exact h kv (List.mem_cons_of_mem _ h1)
    · rcases hd with ⟨k, v⟩
      simp only [hh, if_neg, Bool.false_eq_true, not_false_iff] at hkv
      rcases List.mem_cons.mp hkv with h1 | h1
      · subst h1
        exact h ⟨k, v⟩ (List.mem_cons_self _ _)
      · exact ih (fun kv hkv => h kv (List.mem_cons_of_mem _ hkv)) kv h1

theorem statusCounts_pos (sheets : List OmrSheet) :
    ∀ kv ∈ statusCounts sheets, 1 ≤ kv.2 := by
  have key : ∀ (l : List OmrSheet) (acc : List (String × ℕ)),
      (∀ kv ∈ acc, 1 ≤ kv.2) →
      ∀ kv ∈ l.foldl (fun acc s => addCount acc s.status) acc, 1 ≤ kv.2 := by
    intro l
    induction l with
    | nil => intro acc hacc kv hkv; exact hacc kv hkv
    | cons hd tl ih =>
      intro acc hacc kv hkv
      exact ih (addCount acc hd.status) (addCount_pos acc hd.status hacc) kv hkv
  exact key sheets [] (by simp)

/-- Claim C2: the completion flag of `GET /api/processing-status` is `false`
for every batch, all-terminal batches included. The `statusCounts` object has
a `pending` key only when at least one sheet is pending (and then its count
is at least 1), while a missing key compared against `0` with strict equality
is `false`; so `statusCounts.pending === 0` can never hold. This contradicts
the claimed "true iff no sheet is pending or processing". -/
theorem isComplete_always_false (sheets : List OmrSheet) :
    isComplete sheets = false := by
  unfold isComplete
  cases hfind : lookupCount (statusCounts sheets) "pending" with
  | none => rfl
  | some n =>
    unfold lookupCount at hfind
    rcases Option.map_eq_some'.mp hfind with ⟨kv, hkv, hsnd⟩
    have hmem := List.mem_of_find?_eq_some hkv
    have h1 : 1 ≤ kv.2 := statusCounts_pos sheets kv hmem
    have : n ≠ 0 := by omega
    simp [this]

/-! ### Claims about the sheet pipeline -/

/-- Claim C3, counterexample. Re-invoking the pipeline on a sheet already in
the terminal status `processed` with stored score 4.5 is not rejected: the
sheet is reprocessed (with the all-zero random stream the new detection
scores every question 4 with confidence 0.7) and its stored result is
overwritten — the score becomes 4 and the status `review_needed`. There is no
AlreadyProcessedError anywhere in the code. -/
theorem reprocess_overwrites_result :
    (processOMRImage sheetA true "a.png" (fun _ => 0) 0 2500).overallScore =
        some 4 ∧
      (processOMRImage sheetA true "a.png" (fun _ => 0) 0 2500).status =
        "review_needed" ∧
      sheetA.overallScore = some (9/2) ∧ sheetA.status = "processed" ∧
      some (4 : ℚ) ≠ some (9/2 : ℚ) := by
  refine ⟨?_, ?_, rfl, rfl, by norm_num⟩ <;>
    · simp [processOMRImage, processBody, updateOmrSheet, patchField, sheetA,
        simulateOMRDetection, mkResponse, questions, List.enum, List.enumFrom,
        jround_eq]
      norm_num

/-- Claim C3, amended: `processOMRImage` never inspects the stored status —
invoking it on a sheet in any status (terminal or not) produces exactly the
same sequence of storage updates and the same final row, so a terminal sheet
is silently reprocessed and its result overwritten rather than rejected. -/
theorem processOMRImage_ignores_prior_status (s : OmrSheet) (st1 st2 : String)
    (fe : Bool) (p : String) (r : ℕ → ℚ) (t0 t1 : ℚ) :
    processOMRImage { s with status := st1 } fe p r t0 t1 =
      processOMRImage { s with status := st2 } fe p r t0 t1 := by
  cases fe <;> rfl

/-- Claim C4: on the success path the terminal status is `processed` exactly
when the detection's overall confidence is at least the 0.8 threshold, and
`review_needed` exactly when it is strictly below. -/
theorem processOMRImage_threshold (s : OmrSheet) (p : String) (r : ℕ → ℚ)
    (t0 t1 : ℚ) :
    ((processOMRImage s true p r t0 t1).status = "processed" ↔
        4/5 ≤ (simulateOMRDetection p r).confidence) ∧
      ((processOMRImage s true p r t0 t1).status = "review_needed" ↔
        (simulateOMRDetection p r).confidence < 4/5) := by
  have hst : (processOMRImage s true p r t0 t1).status =
      (if (simulateOMRDetection p r).confidence < 4/5 then "review_needed"
        else "processed") := rfl
  rw [hst]
  by_cases hc : (simulateOMRDetection p r).confidence < 4/5
  · simp [hc, not_le.mpr hc]
  · simp [hc, le_of_not_lt hc]

/-- Claim C5: when the source image cannot be located (the only throwing
stage of the embedded body), the sheet ends `failed`, with the error cause
and the elapsed time recorded in its metadata; the catch converts the thrown
error into this update, and `processOMRImage` is a total function — the
embedded form of "no exception escapes to the caller". -/
theorem processOMRImage_missing_file_fails (s : OmrSheet) (p : String)
    (r : ℕ → ℚ) (t0 t1 : ℚ) :
    (processOMRImage s false p r t0 t1).status = "failed" ∧
      (processOMRImage s false p r t0 t1).metadata =
        some { error := some "File not found", processingTime := some (t1 - t0)
               imageQuality := none, detectedMarks := none, skewAngle := none } ∧
      processBody (updateOmrSheet s { status := some "processing" }) false p r
          t0 t1 =
        Except.error "File not found" :=
  ⟨rfl, rfl, rfl⟩

/-! ### Claims about detection -/

/-- Claim C6, counterexample. Detection confidence is not a function of the
image at all, let alone `min(1, 2·fillRatio)`: for the same sheet file, two
runs (different random streams) return confidences 0.7 and 0.85 for every
region, and the placeholder mark detector returns no marks whatsoever. Were
confidence determined by each region's fill ratio, the two runs on the same
image would agree. -/
theorem detection_confidence_not_fill_based :
    ((simulateOMRDetection "sheet.png" fun _ => 0).responses.map
        fun q => q.confidence) = [7/10, 7/10, 7/10, 7/10, 7/10] ∧
      ((simulateOMRDetection "sheet.png" fun _ => 1/2).responses.map
        fun q => q.confidence) = [17/20, 17/20, 17/20, 17/20, 17/20] ∧
      (7/10 : ℚ) ≠ 17/20 ∧
      detectOMRMarks "sheet.png" = [] := by
  refine ⟨?_, ?_, by norm_num, rfl⟩ <;>
    · simp [simulateOMRDetection, mkResponse, questions, List.enum,
        List.enumFrom] <;> norm_num

/-- Claim C6, amended: the code computes no fill ratio. `detectOMRMarks` is a
placeholder returning an empty list, and each simulated response confidence
is `0.7 + 0.3·u` for the corresponding drawn random value `u`, independent of
the image content (so it always lies in `[0.7, 1)` for draws in `[0, 1)`, and
is monotone in the draw, but never follows `min(1, 2·fillRatio)`). -/
theorem simulate_confidence_formula (p : String) (r : ℕ → ℚ) :
    ((simulateOMRDetection p r).responses.map fun q => q.confidence) =
        [7/10 + r 1 * (3/10), 7/10 + r 4 * (3/10), 7/10 + r 7 * (3/10),
          7/10 + r 10 * (3/10), 7/10 + r 13 * (3/10)] ∧
      detectOMRMarks p = [] :=
  ⟨rfl, rfl⟩

/-- The global `Math.random` stream, as it looks to two successive detection
calls: the first call consumes the 17 draws at indices `0..16` (all `0`
here), the second starts at index 17 (all `0.9` from there on). -/
def streamJump (n : ℕ) : ℚ := if n < 17 then 0 else 9/10

/-- Claim C7, counterexample. Detection is not a pure function of the sheet
input: it reads the global random stream. Two successive invocations on the
same file — the second continuing the stream after the 17 draws the first
consumed — give overall scores 4 and 5. -/
theorem simulate_two_calls_differ :
    (simulateOMRDetection "a.png" streamJump).overallScore = 4 ∧
      (simulateOMRDetection "a.png" fun n => streamJump (n + 17)).overallScore
        = 5 ∧
      (4 : ℚ) ≠ 5 := by
  refine ⟨?_, ?_, by norm_num⟩ <;>
    · simp [simulateOMRDetection, mkResponse, questions, List.enum,
        List.enumFrom, streamJump, jround_eq]
      norm_num

/-- Claim C7, amended: detection-plus-aggregation is deterministic only once
the random draws are fixed — it is a pure function of the drawn stream and
ignores the sheet input entirely, so with the same stream position any two
file paths (in particular the same one) give identical responses, scores and
confidences. -/
theorem simulate_deterministic_in_stream (p1 p2 : String) (r : ℕ → ℚ) :
    simulateOMRDetection p1 r = simulateOMRDetection p2 r := rfl

/-- The explicit 5-element response list produced by one detection call. -/
def respList (r : ℕ → ℚ) : List OMRResponse :=
  [mkResponse r 0 ("1", "Course Content Quality"),
   mkResponse r 1 ("2", "Teaching Effectiveness"),
   mkResponse r 2 ("3", "Learning Materials"),
   mkResponse r 3 ("4", "Assessment Methods"),
   mkResponse r 4 ("5", "Overall Satisfaction")]

theorem simulate_responses (p : String) (r : ℕ → ℚ) :
    (simulateOMRDetection p r).responses = respList r := rfl

theorem mkResponse_response_bounds (r : ℕ → ℚ) (i : ℕ) (q : String × String) :
    1 ≤ (mkResponse r i q).response ∧ (mkResponse r i q).response ≤ 5 :=
  response_clamp_bounds _

theorem mkResponse_confidence_eq (r : ℕ → ℚ) (i : ℕ) (q : String × String) :
    (mkResponse r i q).confidence = 7/10 + r (3*i + 1) * (3/10) := rfl

theorem confidence_draw_bounds (v : ℚ) (h0 : 0 ≤ v) (h1 : v < 1) :
    7/10 ≤ 7/10 + v * (3/10) ∧ 7/10 + v * (3/10) < 1 := by
  constructor <;> nlinarith

/-- Claim C8: the sheet's `overallScore` is exactly the arithmetic mean of
the per-question values over the answered questions. In the implemented
pipeline every one of the 5 questions is always answered with an integer
value in `1..5` (the data model has no null/unanswered response), so the mean
over answered questions is the mean over all responses, and the
two-decimal rounding is exact on such a mean — the equality below is exact,
not approximate. The spec's `[5, null, 3]` illustration is unrepresentable
in the code: no response can be null, so no question is ever dropped from
numerator or denominator. -/
theorem overallScore_is_mean_of_answered (p : String) (r : ℕ → ℚ) :
    (simulateOMRDetection p r).overallScore =
        ((simulateOMRDetection p r).responses.map
            fun q => (q.response : ℚ)).sum /
          ((simulateOMRDetection p r).responses.length : ℚ) ∧
      (simulateOMRDetection p r).responses.length = 5 ∧
      ∀ q ∈ (simulateOMRDetection p r).responses,
        1 ≤ q.response ∧ q.response ≤ 5 := by
  refine ⟨?_, rfl, ?_⟩
  · have h1 : (simulateOMRDetection p r).overallScore =
        ((jround ((((respList r).map fun q => (q.response : ℚ)).sum /
          (((respList r).length : ℕ) : ℚ)) * 100) : ℤ) : ℚ) / 100 := rfl
    rw [h1, simulate_responses]
    simp only [respList, List.map_cons, List.map_nil, List.sum_cons,
      List.sum_nil, List.length_cons, List.length_nil, add_zero,
      Nat.cast_ofNat, zero_add]
    generalize (mkResponse r 0 ("1", "Course Content Quality")).response = n0
    generalize (mkResponse r 1 ("2", "Teaching Effectiveness")).response = n1
    generalize (mkResponse r 2 ("3", "Learning Materials")).response = n2
    generalize (mkResponse r 3 ("4", "Assessment Methods")).response = n3
    generalize (mkResponse r 4 ("5", "Overall Satisfaction")).response = n4
    have h2 : ((n0 : ℚ) + ((n1 : ℚ) + ((n2 : ℚ) + ((n3 : ℚ) + (n4 : ℚ))))) =
        ((n0 + n1 + n2 + n3 + n4 : ℤ) : ℚ) := by push_cast; ring
    have hlen : ((1 + 1 + 1 + 1 + 1 : ℕ) : ℚ) = 5 := by norm_num
    rw [h2, hlen, round2_fifth]
  · intro q hq
    rw [simulate_responses] at hq
    simp only [respList, List.mem_cons, List.not_mem_nil, or_false] at hq
    rcases hq with h | h | h | h | h <;>
      · subst h
        exact mkResponse_response_bounds r _ _

/-- Witness for `overallScore_is_mean_of_answered` at the all-zero draw
stream. -/
theorem overallScore_is_mean_of_answered_wit :
    (simulateOMRDetection "w2.png" fun _ => (0 : ℚ)).overallScore =
      ((simulateOMRDetection "w2.png" fun _ => (0 : ℚ)).responses.map
          fun q => (q.response : ℚ)).sum /
        ((simulateOMRDetection "w2.png" fun _ => (0 : ℚ)).responses.length : ℚ) :=
  (overallScore_is_mean_of_answered "w2.png" fun _ => 0).1

/-- Claim C10: every detection result has exactly 5 responses, each an
answered (never null/ambiguous) value in `1..5` with confidence in
`[0.7, 1]`, and the sheet's overall confidence also lies in `[0.7, 1]` —
given that every `Math.random` draw lies in `[0, 1)`. -/
theorem simulate_detection_invariants (p : String) (r : ℕ → ℚ)
    (h : ∀ n, 0 ≤ r n ∧ r n < 1) :
    (simulateOMRDetection p r).responses.length = 5 ∧
      (∀ q ∈ (simulateOMRDetection p r).responses,
        1 ≤ q.response ∧ q.response ≤ 5 ∧
          7/10 ≤ q.confidence ∧ q.confidence ≤ 1) ∧
      7/10 ≤ (simulateOMRDetection p r).confidence ∧
      (simulateOMRDetection p r).confidence ≤ 1 := by
  refine ⟨rfl, ?_, ?_⟩
  · intro q hq
    rw [simulate_responses] at hq
    simp only [respList, List.mem_cons, List.not_mem_nil, or_false] at hq
    rcases hq with hh | hh | hh | hh | hh <;>
      subst hh <;>
      refine ⟨(mkResponse_response_bounds r _ _).1,
        (mkResponse_response_bounds r _ _).2, ?_, ?_⟩ <;>
      rw [mkResponse_confidence_eq] <;>
      first
      | exact (confidence_draw_bounds _ (h _).1 (h _).2).1
      | exact le_of_lt (confidence_draw_bounds _ (h _).1 (h _).2).2
  · have hc : (simulateOMRDetection p r).confidence =
        ((jround ((((respList r).map fun q => q.confidence).sum /
          (((respList r).length : ℕ) : ℚ)) * 10000) : ℤ) : ℚ) / 10000 := rfl
    rw [hc]
    simp only [respList, List.map_cons, List.map_nil, List.sum_cons,
      List.sum_nil, List.length_cons, List.length_nil, add_zero,
      Nat.cast_ofNat, zero_add]
    have e1 : (mkResponse r 0 ("1", "Course Content Quality")).confidence =
        7/10 + r 1 * (3/10) := rfl
    have e2 : (mkResponse r 1 ("2", "Teaching Effectiveness")).confidence =
        7/10 + r 4 * (3/10) := rfl
    have e3 : (mkResponse r 2 ("3", "Learning Materials")).confidence =
        7/10 + r 7 * (3/10) := rfl
    have e4 : (mkResponse r 3 ("4", "Assessment Methods")).confidence =
        7/10 + r 10 * (3/10) := rfl
    have e5 : (mkResponse r 4 ("5", "Overall Satisfaction")).confidence =
        7/10 + r 13 * (3/10) := rfl
    rw [e1, e2, e3, e4, e5]
    have hlen : ((1 + 1 + 1 + 1 + 1 : ℕ) : ℚ) = 5 := by norm_num
    rw [hlen]
    have b1 := confidence_draw_bounds (r 1) (h 1).1 (h 1).2
    have b2 := confidence_draw_bounds (r 4) (h 4).1 (h 4).2
    have b3 := confidence_draw_bounds (r 7) (h 7).1 (h 7).2
    have b4 := confidence_draw_bounds (r 10) (h 10).1 (h 10).2
    have b5 := confidence_draw_bounds (r 13) (h 13).1 (h 13).2
    exact round4_bounds _ (by linarith [b1.1, b2.1, b3.1, b4.1, b5.1])
      (by linarith [b1.2, b2.2, b3.2, b4.2, b5.2])

/-- Witness for `simulate_detection_invariants` at the all-zero draw
stream. -/
theorem simulate_detection_invariants_wit :
    (∀ n : ℕ, 0 ≤ (fun _ : ℕ => (0 : ℚ)) n ∧ (fun _ : ℕ => (0 : ℚ)) n < 1) ∧
      7/10 ≤ (simulateOMRDetection "w.png" fun _ => (0 : ℚ)).confidence ∧
      (simulateOMRDetection "w.png" fun _ => (0 : ℚ)).confidence ≤ 1 := by
  have h : ∀ n : ℕ, 0 ≤ (fun _ : ℕ => (0 : ℚ)) n ∧
      (fun _ : ℕ => (0 : ℚ)) n < 1 := fun n => ⟨le_refl 0, by norm_num⟩
  exact ⟨h, (simulate_detection_invariants "w.png" (fun _ => 0) h).2.2⟩

/-- Claim C9, counterexample. `preprocessImage` is a placeholder: on a path
holding a zero-width image (the function never reads the file, so the path
below may denote any such image) it succeeds and returns the path unchanged
instead of failing with InvalidImageError — no such error exists in the
code. -/
theorem preprocessImage_zero_dim_succeeds :
    preprocessImage "zero_width.png" = Except.ok "zero_width.png" := rfl

/-- Claim C9, amended: `preprocessImage` performs no preprocessing step and
can never fail: for every input path — whatever image, malformed or
zero-dimensioned, it denotes — it returns the path unchanged on the success
channel. -/
theorem preprocessImage_total (p : String) :
    preprocessImage p = Except.ok p := rfl
